import Mathlib

/-!
Shallow embedding of the ticket store of `samreensami/todo-phase1`.

The repository has two storage variants:

* the persistent variant (`src/backend/storage.py`, `src/backend/models.py`):
  a `TicketStorage` over a SQL table, embedded here as `DB` (a list of rows
  plus the table's identity counter and a logical clock standing for
  `datetime.utcnow`) with the operations `TicketStorage.create`,
  `TicketStorage.get`, `TicketStorage.list_all`, `TicketStorage.update`,
  `TicketStorage.update_status`, `TicketStorage.update_priority`,
  `TicketStorage.delete`;

* the in-memory variant: its model is `src/src/models.py` (a Pydantic
  `Ticket` whose `title` carries `min_length=1`), but the storage class
  itself (`src/storage.py`, imported by `src/src/cli.py` and `demo.py` and
  exercised by `src/tests/test_storage.py`) is not present in the
  repository, so it is modelled from the spec below (`MemStore`).
-/

/-- Ticket priority levels (`Priority` in both `models.py` files). -/
inductive Priority where
  | LOW
  | MED
  | HIGH
deriving DecidableEq, Repr

/-- Ticket status values (`Status` in both `models.py` files). -/
inductive Status where
  | BACKLOG
  | DONE
deriving DecidableEq, Repr

/-- A row of the persistent variant (`backend/models.py`, class `Ticket`,
SQLModel with `table=True`). `title: str`, `priority: Priority` and
`status: Status` are non-Optional annotations, so `create_all` declares their
columns NOT NULL: every committed row carries a value in each. `created_at`
and `updated_at` are timestamps (`datetime.utcnow`), embedded as `Nat` ticks
of a logical clock. -/
structure Ticket where
  id : Nat
  title : String
  priority : Priority
  status : Status
  created_at : Nat
  updated_at : Nat
deriving DecidableEq, Repr

/-- Request schema for creation (`backend/models.py`, class `TicketCreate`):
`title: str` with no length constraint, `priority` defaulting to `MED`,
`status` defaulting to `BACKLOG`. -/
structure TicketCreate where
  title : String
  priority : Priority := Priority.MED
  status : Status := Status.BACKLOG
deriving DecidableEq, Repr

/-- Request schema for partial update (`backend/models.py`, class
`TicketUpdate`): every field is `Optional[...] = None`, and Pydantic tracks
which fields the caller set explicitly (`exclude_unset`). Each field is
therefore embedded as an outer `Option` (set / unset) around the field's
nullable value (an inner `Option`). -/
structure TicketUpdate where
  title : Option (Option String) := none
  priority : Option (Option Priority) := none
  status : Option (Option Status) := none
deriving DecidableEq, Repr

/-- Does the update explicitly supply a null value for some field? Each of
the three columns is NOT NULL, so such a write is rejected by the database
engine at commit. -/
def TicketUpdate.setsNull (data : TicketUpdate) : Bool :=
  data.title == some none || data.priority == some none || data.status == some none

/-- The database error raised when a flush violates a constraint
(`sqlalchemy.exc.IntegrityError`); the transaction is rolled back and the
table is unchanged. -/
inductive IntegrityError where
  | notNullViolation
deriving DecidableEq, Repr

/-- State of the persistent store: the table rows in insertion order, the
identity counter that assigns the next primary key, and a logical clock
standing for `datetime.utcnow` (monotonically ticking). -/
structure DB where
  nextId : Nat
  now : Nat
  rows : List Ticket
deriving DecidableEq, Repr

/-- A fresh database: identity counters start at 1, no rows. -/
def emptyDB : DB := { nextId := 1, now := 0, rows := [] }

/-- Replace the first element satisfying `p` by `a` (how the ORM writes back
the single object fetched by `first()`). -/
def replaceFirst {α : Type} (p : α → Bool) (a : α) : List α → List α
  | [] => []
  | b :: l => if p b then a :: l else b :: replaceFirst p a l

namespace TicketStorage

/-- `backend/storage.py`, `TicketStorage.create`: validates the request into a
`Ticket` row (the timestamp defaults fire, the id is assigned by the table's
identity mechanism on commit), inserts it and returns the refreshed row. -/
def create (db : DB) (data : TicketCreate) : Ticket × DB :=
  let t : Ticket :=
    { id := db.nextId
      title := data.title
      priority := data.priority
      status := data.status
      created_at := db.now
      updated_at := db.now }
  (t, { nextId := db.nextId + 1, now := db.now + 1, rows := db.rows ++ [t] })

/-- `backend/storage.py`, `TicketStorage.get`: `select ... where id == ticket_id`,
then `first()`. -/
def get (db : DB) (i : Nat) : Option Ticket :=
  db.rows.find? (fun t => t.id == i)

/-- Does a ticket satisfy the optional status filter of `list_all`? A passed
enum member is always truthy in Python, so `if status:` applies the filter
exactly when a status was given. -/
def statusMatches (s? : Option Status) (t : Ticket) : Bool :=
  match s? with
  | none => true
  | some s => t.status == s

/-- Does a ticket satisfy the optional priority filter of `list_all`? -/
def priorityMatches (p? : Option Priority) (t : Ticket) : Bool :=
  match p? with
  | none => true
  | some p => t.priority == p

/-- Sort key of `order_by(Ticket.created_at.desc())`: `t` comes no later than
`u` in the output when `t` was created no earlier than `u`. -/
def laterFirst (t u : Ticket) : Prop := u.created_at ≤ t.created_at

instance : DecidableRel laterFirst := fun t u => Nat.decLe u.created_at t.created_at

instance : IsTotal Ticket laterFirst := ⟨fun t u => Nat.le_total u.created_at t.created_at⟩

instance : IsTrans Ticket laterFirst := ⟨fun _ _ _ h1 h2 => Nat.le_trans h2 h1⟩

/-- `backend/storage.py`, `TicketStorage.list_all`: a `select` narrowed by the
given filters (AND-combined `where` clauses) and ordered by `created_at`
descending; ties keep insertion order (a stable sort). -/
def list_all (db : DB) (s? : Option Status) (p? : Option Priority) : List Ticket :=
  List.insertionSort laterFirst
    (db.rows.filter (fun t => statusMatches s? t && priorityMatches p? t))

/-- The assignment loop of `TicketStorage.update`: every field the caller set
explicitly to a non-null value overwrites the attribute
(`model_dump(exclude_unset=True)` keeps explicitly set fields, including
those set to `None`; the null case is handled by the commit, see `update`). -/
def applyUpdate (data : TicketUpdate) (t : Ticket) : Ticket :=
  { t with
    title := match data.title with
      | some (some v) => v
      | _ => t.title
    priority := match data.priority with
      | some (some v) => v
      | _ => t.priority
    status := match data.status with
      | some (some v) => v
      | _ => t.status }

/-- `backend/storage.py`, `TicketStorage.update`: fetch the first row with the
id (absent result if there is none, table untouched); set every field the
caller supplied explicitly and commit. At commit the unit of work compares
each attribute with its committed value: if an explicitly supplied value is
null it goes into the UPDATE and the NOT NULL column rejects it
(`IntegrityError`, transaction rolled back, table unchanged); if no attribute
has a net change, no UPDATE statement is emitted at all, so the
`onupdate=datetime.utcnow` hook does not fire and `updated_at` keeps its old
value; otherwise the UPDATE is emitted and the hook refreshes `updated_at`.
The refreshed row is returned. -/
def update (db : DB) (i : Nat) (data : TicketUpdate) :
    Except IntegrityError (Option Ticket) × DB :=
  match db.rows.find? (fun t => t.id == i) with
  | none => (Except.ok none, db)
  | some t =>
    if data.setsNull then
      (Except.error IntegrityError.notNullViolation, db)
    else if applyUpdate data t = t then
      (Except.ok (some t), db)
    else
      let t' : Ticket := { applyUpdate data t with updated_at := db.now }
      (Except.ok (some t'),
        { db with
          now := db.now + 1
          rows := replaceFirst (fun u => u.id == i) t' db.rows })

/-- `backend/storage.py`, `TicketStorage.update_status`: fetch the first row
with the id; if present, set its status and commit (no UPDATE is emitted when
the new status equals the old one, so `updated_at` is refreshed only on a net
change) and return the refreshed row; otherwise return absent and leave the
table alone. -/
def update_status (db : DB) (i : Nat) (s : Status) : Option Ticket × DB :=
  match db.rows.find? (fun t => t.id == i) with
  | none => (none, db)
  | some t =>
    if t.status = s then
      (some t, db)
    else
      let t' : Ticket := { t with status := s, updated_at := db.now }
      (some t',
        { db with
          now := db.now + 1
          rows := replaceFirst (fun u => u.id == i) t' db.rows })

/-- `backend/storage.py`, `TicketStorage.update_priority`: fetch the first
row with the id; if present, set its priority and commit (no UPDATE is
emitted when the new priority equals the old one, so `updated_at` is
refreshed only on a net change) and return the refreshed row; otherwise
return absent and leave the table alone. -/
def update_priority (db : DB) (i : Nat) (p : Priority) : Option Ticket × DB :=
  match db.rows.find? (fun t => t.id == i) with
  | none => (none, db)
  | some t =>
    if t.priority = p then
      (some t, db)
    else
      let t' : Ticket := { t with priority := p, updated_at := db.now }
      (some t',
        { db with
          now := db.now + 1
          rows := replaceFirst (fun u => u.id == i) t' db.rows })

/-- `backend/storage.py`, `TicketStorage.delete`: fetch the first row with the
id; if present, delete it and report `true`; otherwise report `false`. -/
def delete (db : DB) (i : Nat) : Bool × DB :=
  match db.rows.find? (fun t => t.id == i) with
  | none => (false, db)
  | some _ => (true, { db with rows := db.rows.eraseP (fun t => t.id == i) })

end TicketStorage

/-- Validation failure of the in-memory model (`pydantic.ValidationError`
raised by `src/src/models.py`, where `title` carries `min_length=1`). -/
inductive ValidationError where
  | emptyTitle
deriving DecidableEq, Repr

/-- A ticket of the in-memory variant (`src/src/models.py`, class `Ticket`):
`id`, a `title` validated to length at least 1, `priority` defaulting to
`MED` and `status` defaulting to `BACKLOG`; no timestamps. -/
structure MemTicket where
  id : Nat
  title : String
  priority : Priority := Priority.MED
  status : Status := Status.BACKLOG
deriving DecidableEq, Repr

/-- Modelled from the spec: the in-memory `TicketStorage` of `src/storage.py`
is imported by `src/src/cli.py` and `demo.py` and exercised by
`src/tests/test_storage.py`, but its file is not in the repository. Per the
spec it is a single mutable mapping from id to record together with a
sequential id counter; ids start at 1 (`test_create_multiple_tickets_increments_id`)
and listing preserves insertion order. -/
structure MemStore where
  next_id : Nat
  tickets : List MemTicket
deriving DecidableEq, Repr

/-- A fresh in-memory store: the first assigned id is 1. -/
def emptyMemStore : MemStore := { next_id := 1, tickets := [] }

namespace MemStore

/-- Modelled from the spec: `create(title, priority=MED, status=BACKLOG)` of
the missing `src/storage.py` assigns the next unique id and stores a validated
`Ticket` (`src/src/models.py` rejects an empty title with a
`ValidationError`); on validation failure the store is untouched. -/
def create (st : MemStore) (title : String) (p : Priority := Priority.MED)
    (s : Status := Status.BACKLOG) : Except ValidationError (MemTicket × MemStore) :=
  if title = "" then
    Except.error ValidationError.emptyTitle
  else
    let t : MemTicket := { id := st.next_id, title := title, priority := p, status := s }
    Except.ok (t, { next_id := st.next_id + 1, tickets := st.tickets ++ [t] })

/-- Modelled from the spec: `get(id)` of the missing `src/storage.py` returns
the record for the id, or absent. -/
def get (st : MemStore) (i : Nat) : Option MemTicket :=
  st.tickets.find? (fun t => t.id == i)

/-- Modelled from the spec: `list_all()` of the missing `src/storage.py`
returns all records in insertion order. -/
def list_all (st : MemStore) : List MemTicket :=
  st.tickets

/-- Modelled from the spec: `filter_by_status(status)` of the missing
`src/storage.py`, equivalent to listing with a single status filter. -/
def filter_by_status (st : MemStore) (s : Status) : List MemTicket :=
  st.tickets.filter (fun t => t.status == s)

/-- Modelled from the spec: `filter_by_priority(priority)` of the missing
`src/storage.py`, equivalent to listing with a single priority filter. -/
def filter_by_priority (st : MemStore) (p : Priority) : List MemTicket :=
  st.tickets.filter (fun t => t.priority == p)

/-- Modelled from the spec: `update_status(id, status)` of the missing
`src/storage.py` mutates the record in place if present and returns it,
otherwise returns absent and leaves the store unchanged. -/
def update_status (st : MemStore) (i : Nat) (s : Status) : Option MemTicket × MemStore :=
  match st.tickets.find? (fun t => t.id == i) with
  | none => (none, st)
  | some t =>
    let t' : MemTicket := { t with status := s }
    (some t', { st with tickets := replaceFirst (fun u => u.id == i) t' st.tickets })

/-- Modelled from the spec: `update_priority(id, priority)` of the missing
`src/storage.py` mutates the record in place if present and returns it,
otherwise returns absent and leaves the store unchanged. -/
def update_priority (st : MemStore) (i : Nat) (p : Priority) : Option MemTicket × MemStore :=
  match st.tickets.find? (fun t => t.id == i) with
  | none => (none, st)
  | some t =>
    let t' : MemTicket := { t with priority := p }
    (some t', { st with tickets := replaceFirst (fun u => u.id == i) t' st.tickets })

/-- Modelled from the spec: `delete(id)` of the missing `src/storage.py`
removes the record if present and reports whether a removal occurred. -/
def delete (st : MemStore) (i : Nat) : Bool × MemStore :=
  match st.tickets.find? (fun t => t.id == i) with
  | none => (false, st)
  | some _ => (true, { st with tickets := st.tickets.eraseP (fun t => t.id == i) })

/-- Run a sequence of `create` calls (title, priority, status) against the
store; a call that fails validation leaves the store untouched and the run
continues. -/
def createMany (st : MemStore) : List (String × Priority × Status) → MemStore
  | [] => st
  | (title, p, s) :: rest =>
    match create st title p s with
    | Except.error _ => createMany st rest
    | Except.ok (_, st') => createMany st' rest

end MemStore

/-! ## Helper lemmas -/

lemma ticket_find?_some_id {l : List Ticket} {i : Nat} {t : Ticket}
    (h : l.find? (fun u => u.id == i) = some t) : t.id = i := by
  simpa using List.find?_some h

lemma ticket_delete_of_find?_none {db : DB} {i : Nat}
    (h : db.rows.find? (fun t => t.id == i) = none) :
    TicketStorage.delete db i = (false, db) := by
  simp [TicketStorage.delete, h]

lemma find?_replaceFirst {α : Type} {p : α → Bool} {a : α} (ha : p a = true) :
    ∀ {l : List α} {b : α}, l.find? p = some b →
      (replaceFirst p a l).find? p = some a := by
  intro l
  induction l with
  | nil => intro b h; simp at h
  | cons c l ih =>
    intro b h
    by_cases hc : p c
    · simp [replaceFirst, hc, ha]
    · rw [List.find?_cons_of_neg _ hc] at h
      simp [replaceFirst, hc, ih h]

lemma ticket_find?_eraseP_of_nodup {i : Nat} :
    ∀ {l : List Ticket}, (l.map Ticket.id).Nodup →
      (l.eraseP (fun t => t.id == i)).find? (fun t => t.id == i) = none := by
  intro l
  induction l with
  | nil => intro _; simp
  | cons b l ih =>
    intro h
    by_cases hb : b.id = i
    · rw [List.eraseP_cons_of_pos (by simpa using hb)]
      rw [List.find?_eq_none]
      intro x hx hpx
      have hxi : x.id = i := by simpa using hpx
      have hbmem : b.id ∈ l.map Ticket.id := by
        rw [hb, ← hxi]
        exact List.mem_map_of_mem Ticket.id hx
      exact (List.nodup_cons.mp h).1 hbmem
    · rw [List.eraseP_cons_of_neg (by simpa using hb)]
      rw [List.find?_cons_of_neg _ (by simpa using hb)]
      exact ih (List.nodup_cons.mp h).2

/-! ## C6: get is total, returns the record exactly when it exists -/

/-- C6: for every id, `get` returns a record with that id drawn from the store
when one exists, and `none` otherwise; it is a total function, so no error is
raised for a missing id. -/
theorem get_total_spec (db : DB) (i : Nat) :
    ((TicketStorage.get db i).isSome ↔ ∃ t ∈ db.rows, t.id = i) ∧
    (∀ t, TicketStorage.get db i = some t → t ∈ db.rows ∧ t.id = i) := by
  constructor
  · unfold TicketStorage.get
    rw [List.find?_isSome]
    constructor
    · rintro ⟨t, ht, hp⟩
      exact ⟨t, ht, by simpa using hp⟩
    · rintro ⟨t, ht, hp⟩
      exact ⟨t, ht, by simpa using hp⟩
  · intro t h
    exact ⟨List.mem_of_find?_eq_some h, ticket_find?_some_id h⟩

/-- C6 witness: on the empty store, `get 999` is absent, not an error. -/
theorem get_total_spec_witness :
    TicketStorage.get emptyDB 999 = none ∧ ¬ (TicketStorage.get emptyDB 999).isSome := by
  have h := (get_total_spec emptyDB 999).1
  constructor
  · decide
  · intro hs
    rcases h.mp hs with ⟨t, ht, _⟩
    simp [emptyDB] at ht

/-! ## C5: single-field updates on a nonexistent id -/

/-- C5: when no record with the id exists, `update_status` and
`update_priority` return an absent result and leave the database state
completely unchanged. -/
theorem update_single_field_absent (db : DB) (i : Nat) (s : Status) (p : Priority)
    (h : TicketStorage.get db i = none) :
    TicketStorage.update_status db i s = (none, db) ∧
    TicketStorage.update_priority db i p = (none, db) := by
  unfold TicketStorage.get at h
  constructor
  · unfold TicketStorage.update_status
    rw [h]
  · unfold TicketStorage.update_priority
    rw [h]

/-- C5 witness: on the empty store, updating status or priority of id 999
returns absent and the state is untouched. -/
theorem update_single_field_absent_witness :
    TicketStorage.update_status emptyDB 999 Status.DONE = (none, emptyDB) ∧
    TicketStorage.update_priority emptyDB 999 Priority.HIGH = (none, emptyDB) :=
  update_single_field_absent emptyDB 999 Status.DONE Priority.HIGH (by decide)

/-! ## C7: get immediately after create returns the created record -/

/-- C7: if every existing row's id is below the identity counter (which the
identity mechanism maintains), then after `create` returns a record with id
`X`, `get X` with no intervening operation returns a record equal to the one
`create` returned. -/
theorem get_after_create (db : DB) (data : TicketCreate)
    (h : ∀ t ∈ db.rows, t.id < db.nextId) :
    TicketStorage.get (TicketStorage.create db data).2
        (TicketStorage.create db data).1.id =
      some (TicketStorage.create db data).1 := by
  unfold TicketStorage.create TicketStorage.get
  simp only [List.find?_append]
  have hnone : db.rows.find? (fun t => t.id == db.nextId) = none := by
    rw [List.find?_eq_none]
    intro t ht
    have := h t ht
    simp
    omega
  rw [hnone]
  simp

/-- C7 witness: creating a first ticket in the empty store and reading id 1
back returns the very record `create` returned. -/
theorem get_after_create_witness :
    TicketStorage.get
        (TicketStorage.create emptyDB { title := "Fix login bug", priority := Priority.HIGH }).2
        (TicketStorage.create emptyDB { title := "Fix login bug", priority := Priority.HIGH }).1.id =
      some (TicketStorage.create emptyDB { title := "Fix login bug", priority := Priority.HIGH }).1 :=
  get_after_create emptyDB { title := "Fix login bug", priority := Priority.HIGH } (by decide)

/-! ## C3: delete semantics -/

/-- C3: assuming primary-key uniqueness of the stored ids, `delete i` reports
`true` exactly when a record with id `i` exists; afterwards `get i` is absent;
and a second `delete i` with no intervening create reports `false` and leaves
the store in the same end state. -/
theorem delete_spec (db : DB) (i : Nat)
    (h : (db.rows.map Ticket.id).Nodup) :
    ((TicketStorage.delete db i).1 = true ↔ ∃ t ∈ db.rows, t.id = i) ∧
    TicketStorage.get (TicketStorage.delete db i).2 i = none ∧
    TicketStorage.delete (TicketStorage.delete db i).2 i =
      (false, (TicketStorage.delete db i).2) := by
  have hget : TicketStorage.get (TicketStorage.delete db i).2 i = none := by
    unfold TicketStorage.delete TicketStorage.get
    cases hf : db.rows.find? (fun t => t.id == i) with
    | none => simpa using hf
    | some t => simpa using ticket_find?_eraseP_of_nodup h
  refine ⟨?_, hget, ?_⟩
  · have h1 : (TicketStorage.delete db i).1 = (db.rows.find? (fun t => t.id == i)).isSome := by
      unfold TicketStorage.delete
      cases hf : db.rows.find? (fun t => t.id == i) <;> simp
    rw [h1]
    simp [List.find?_isSome]
  · unfold TicketStorage.get at hget
    exact ticket_delete_of_find?_none hget

/-- C3 witness: in a store holding exactly ticket 1, `delete 1` reports
`true`, `get 1` is then absent, and deleting again reports `false` with the
state unchanged. -/
theorem delete_spec_witness :
    ((TicketStorage.delete (TicketStorage.create emptyDB { title := "A" }).2 1).1 = true ↔
      ∃ t ∈ (TicketStorage.create emptyDB { title := "A" }).2.rows, t.id = 1) ∧
    TicketStorage.get (TicketStorage.delete (TicketStorage.create emptyDB { title := "A" }).2 1).2 1 = none ∧
    TicketStorage.delete (TicketStorage.delete (TicketStorage.create emptyDB { title := "A" }).2 1).2 1 =
      (false, (TicketStorage.delete (TicketStorage.create emptyDB { title := "A" }).2 1).2) :=
  delete_spec (TicketStorage.create emptyDB { title := "A" }).2 1 (by decide)

/-! ## C4 and C10: partial update semantics -/

lemma update_eq_of_found {db : DB} {i : Nat} {data : TicketUpdate} {t : Ticket}
    (hf : db.rows.find? (fun u => u.id == i) = some t) :
    TicketStorage.update db i data =
      if data.setsNull then
        (Except.error IntegrityError.notNullViolation, db)
      else if TicketStorage.applyUpdate data t = t then
        (Except.ok (some t), db)
      else
        (Except.ok (some { TicketStorage.applyUpdate data t with updated_at := db.now }),
          { db with
            now := db.now + 1
            rows := replaceFirst (fun u => u.id == i)
              { TicketStorage.applyUpdate data t with updated_at := db.now } db.rows }) := by
  unfold TicketStorage.update
  rw [hf]

/-- C4 counterexample: the claim requires `update` on an existing id to
refresh `updated_at` for every partial update input, but an update with no
net change emits no UPDATE statement, so the `onupdate` hook never fires: on
a store holding ticket 1 (created at clock 0, current clock 1), the empty
update returns the record with `updated_at` still 0 — not the current clock —
and the state is completely unchanged. -/
theorem update_partial_original_fails :
    (TicketStorage.update (TicketStorage.create emptyDB { title := "A" }).2 1 { }).1 =
      Except.ok (some
        { id := 1, title := "A", priority := Priority.MED,
          status := Status.BACKLOG, created_at := 0, updated_at := 0 }) ∧
    (TicketStorage.create emptyDB { title := "A" }).2.now = 1 ∧
    (TicketStorage.update (TicketStorage.create emptyDB { title := "A" }).2 1 { }).2 =
      (TicketStorage.create emptyDB { title := "A" }).2 :=
  ⟨rfl, rfl, rfl⟩

/-- C4 (amended): for a nonexistent id, `update` returns an absent result and
leaves the state unchanged. For an existing record: an update explicitly
supplying a null value fails at commit with an `IntegrityError` and leaves
the store unchanged; an update with no net change returns the record as it is
— `updated_at` not refreshed — and leaves the store unchanged; an update
whose supplied values are non-null and change the record applies exactly the
fields explicitly supplied, leaves every unset field (and `id`,
`created_at`) untouched, refreshes `updated_at`, and returns the updated
record, which is then the stored record. -/
theorem update_partial_spec (db : DB) (i : Nat) (data : TicketUpdate) :
    (TicketStorage.get db i = none →
      TicketStorage.update db i data = (Except.ok none, db)) ∧
    (∀ t, TicketStorage.get db i = some t →
      (data.setsNull = true →
        TicketStorage.update db i data =
          (Except.error IntegrityError.notNullViolation, db)) ∧
      (data.setsNull = false → TicketStorage.applyUpdate data t = t →
        TicketStorage.update db i data = (Except.ok (some t), db)) ∧
      (data.setsNull = false → TicketStorage.applyUpdate data t ≠ t →
        ∃ t', (TicketStorage.update db i data).1 = Except.ok (some t') ∧
          TicketStorage.get (TicketStorage.update db i data).2 i = some t' ∧
          t'.id = t.id ∧
          t'.created_at = t.created_at ∧
          t'.updated_at = db.now ∧
          (data.title = none → t'.title = t.title) ∧
          (∀ v, data.title = some (some v) → t'.title = v) ∧
          (data.priority = none → t'.priority = t.priority) ∧
          (∀ v, data.priority = some (some v) → t'.priority = v) ∧
          (data.status = none → t'.status = t.status) ∧
          (∀ v, data.status = some (some v) → t'.status = v))) := by
  constructor
  · intro h
    unfold TicketStorage.get at h
    unfold TicketStorage.update
    rw [h]
  · intro t hf
    unfold TicketStorage.get at hf
    have hid : t.id = i := ticket_find?_some_id hf
    refine ⟨?_, ?_, ?_⟩
    · intro hnull
      rw [update_eq_of_found hf, if_pos hnull]
    · intro hnull heq
      rw [update_eq_of_found hf, if_neg (by simp [hnull]), if_pos heq]
    · intro hnull hne
      have h1 : (TicketStorage.update db i data).1 =
          Except.ok (some { TicketStorage.applyUpdate data t with updated_at := db.now }) := by
        rw [update_eq_of_found hf, if_neg (by simp [hnull]), if_neg hne]
      have h2 : TicketStorage.get (TicketStorage.update db i data).2 i =
          some { TicketStorage.applyUpdate data t with updated_at := db.now } := by
        rw [update_eq_of_found hf, if_neg (by simp [hnull]), if_neg hne]
        unfold TicketStorage.get
        exact find?_replaceFirst (by simpa using hid) hf
      refine ⟨_, h1, h2, rfl, rfl, rfl, ?_, ?_, ?_, ?_, ?_, ?_⟩
      · intro h; simp [TicketStorage.applyUpdate, h]
      · intro v h; simp [TicketStorage.applyUpdate, h]
      · intro h; simp [TicketStorage.applyUpdate, h]
      · intro v h; simp [TicketStorage.applyUpdate, h]
      · intro h; simp [TicketStorage.applyUpdate, h]
      · intro v h; simp [TicketStorage.applyUpdate, h]

/-- C4 witness: in a store holding ticket 1, an update that sets only the
status to a new value leaves title, priority and creation time untouched,
refreshes `updated_at`, and the returned record is the stored one. -/
theorem update_partial_spec_witness :
    ∃ t', (TicketStorage.update (TicketStorage.create emptyDB { title := "A" }).2 1
            { status := some (some Status.DONE) }).1 = Except.ok (some t') ∧
      TicketStorage.get (TicketStorage.update (TicketStorage.create emptyDB { title := "A" }).2 1
            { status := some (some Status.DONE) }).2 1 = some t' ∧
      t'.title = "A" ∧
      t'.priority = Priority.MED ∧
      t'.status = Status.DONE ∧
      t'.created_at = 0 ∧
      t'.updated_at = 1 := by
  obtain ⟨t', h1, h2, hid, hc, hu, hT, _, hP, _, _, hS⟩ :=
    ((update_partial_spec (TicketStorage.create emptyDB { title := "A" }).2 1
        { status := some (some Status.DONE) }).2
      { id := 1, title := "A", priority := Priority.MED,
        status := Status.BACKLOG, created_at := 0, updated_at := 0 }
      (by decide)).2.2 rfl (by decide)
  exact ⟨t', h1, h2, by rw [hT rfl], by rw [hP rfl], hS Status.DONE rfl, hc, hu⟩

/-- C10 counterexample: on a store holding ticket 1 (title "A"), `update`
with `title` explicitly assigned `None` does not store a record with a `None`
title: the UPDATE violates the NOT NULL `title` column, the commit raises an
`IntegrityError`, the store is unchanged, and `get 1` still returns the
record with title "A". -/
theorem update_none_title_not_stored :
    TicketStorage.update (TicketStorage.create emptyDB { title := "A" }).2 1
        { title := some none } =
      (Except.error IntegrityError.notNullViolation,
        (TicketStorage.create emptyDB { title := "A" }).2) ∧
    TicketStorage.get (TicketStorage.create emptyDB { title := "A" }).2 1 =
      some
        { id := 1, title := "A", priority := Priority.MED,
          status := Status.BACKLOG, created_at := 0, updated_at := 0 } :=
  ⟨rfl, rfl⟩

/-- C10 (amended): a `title` explicitly set to `None` is distinguished from
an unset `title` — `exclude_unset` retains it and it is written into the
UPDATE — but the NOT NULL `title` column makes the commit fail with an
`IntegrityError`, leaving the store unchanged, so no record with a `None`
title is ever stored; the same update with `title` left unset succeeds
without touching the record. -/
theorem update_explicit_none_title_rejected (db : DB) (i : Nat) (data : TicketUpdate)
    (t : Ticket) (hf : TicketStorage.get db i = some t) (hn : data.title = some none) :
    TicketStorage.update db i data = (Except.error IntegrityError.notNullViolation, db) ∧
    TicketStorage.update db i { } = (Except.ok (some t), db) := by
  unfold TicketStorage.get at hf
  have hnull : data.setsNull = true := by
    simp [TicketUpdate.setsNull, hn]
  constructor
  · rw [update_eq_of_found hf, if_pos hnull]
  · have heq : TicketStorage.applyUpdate { } t = t := rfl
    rw [update_eq_of_found hf, if_neg (by decide), if_pos heq]

/-! ## C2 and C8: listing, filtering and ordering -/

lemma laterFirst_trans {a b c : Ticket} (h1 : TicketStorage.laterFirst a b)
    (h2 : TicketStorage.laterFirst b c) : TicketStorage.laterFirst a c :=
  Nat.le_trans h2 h1

lemma ticket_orderedInsert_cons_of_first {a : Ticket} :
    ∀ {l : List Ticket}, (∀ x ∈ l, TicketStorage.laterFirst a x) →
      List.orderedInsert TicketStorage.laterFirst a l = a :: l := by
  intro l h
  cases l with
  | nil => rfl
  | cons b l =>
    simp only [List.orderedInsert]
    rw [if_pos (h b (List.mem_cons_self b l))]

lemma ticket_filter_orderedInsert (p : Ticket → Bool) (a : Ticket) :
    ∀ (l : List Ticket), l.Sorted TicketStorage.laterFirst →
      (List.orderedInsert TicketStorage.laterFirst a l).filter p =
        if p a then List.orderedInsert TicketStorage.laterFirst a (l.filter p)
        else l.filter p
  | [], _ => by
    simp only [List.orderedInsert, List.filter]
    cases hpa : p a <;> simp
  | b :: l, h => by
    by_cases hab : TicketStorage.laterFirst a b
    · simp only [List.orderedInsert]
      rw [if_pos hab]
      cases hpa : p a
      · rw [List.filter_cons_of_neg (by simp [hpa]), if_neg (by simp [hpa])]
      · have hall : ∀ x ∈ (b :: l).filter p, TicketStorage.laterFirst a x := by
          intro x hx
          have hx' := (List.mem_filter.mp hx).1
          rcases List.mem_cons.mp hx' with h1 | h2
          · exact h1 ▸ hab
          · exact laterFirst_trans hab (List.rel_of_sorted_cons h x h2)
        rw [List.filter_cons_of_pos hpa, if_pos rfl,
          ticket_orderedInsert_cons_of_first hall]
    · simp only [List.orderedInsert]
      rw [if_neg hab]
      have ih := ticket_filter_orderedInsert p a l h.of_cons
      cases hpb : p b
      · rw [List.filter_cons_of_neg (by simp [hpb]), ih,
          List.filter_cons_of_neg (by simp [hpb])]
      · rw [List.filter_cons_of_pos hpb, ih, List.filter_cons_of_pos hpb]
        cases hpa : p a
        · simp
        · simp [List.orderedInsert, hab]

lemma ticket_filter_insertionSort (p : Ticket → Bool) :
    ∀ l : List Ticket,
      (List.insertionSort TicketStorage.laterFirst l).filter p =
        List.insertionSort TicketStorage.laterFirst (l.filter p)
  | [] => rfl
  | a :: l => by
    simp only [List.insertionSort]
    rw [ticket_filter_orderedInsert p a _ (List.sorted_insertionSort _ l)]
    cases hpa : p a
    · simp [List.filter_cons, hpa, ticket_filter_insertionSort p l]
    · simp [List.filter_cons, hpa, ticket_filter_insertionSort p l]

lemma statusMatches_iff (s? : Option Status) (t : Ticket) :
    TicketStorage.statusMatches s? t = true ↔ ∀ s, s? = some s → t.status = s := by
  cases s? <;> simp [TicketStorage.statusMatches]

lemma priorityMatches_iff (p? : Option Priority) (t : Ticket) :
    TicketStorage.priorityMatches p? t = true ↔ ∀ p, p? = some p → t.priority = p := by
  cases p? <;> simp [TicketStorage.priorityMatches]

/-- C2: `list_all` returns exactly the records matching the given status
filter and priority filter (AND-combined, each applied only when given) — as
a permutation of the filtered table, so with the right multiplicity — and the
returned sequence is ordered by creation time descending (newest first). -/
theorem list_all_filters_and_sorted (db : DB) (s? : Option Status) (p? : Option Priority) :
    (∀ t, t ∈ TicketStorage.list_all db s? p? ↔
        t ∈ db.rows ∧ (∀ s, s? = some s → t.status = s) ∧
          (∀ p, p? = some p → t.priority = p)) ∧
    (TicketStorage.list_all db s? p?).Perm
      (db.rows.filter (fun t =>
        TicketStorage.statusMatches s? t && TicketStorage.priorityMatches p? t)) ∧
    (TicketStorage.list_all db s? p?).Sorted TicketStorage.laterFirst := by
  refine ⟨?_, List.perm_insertionSort _ _, List.sorted_insertionSort _ _⟩
  intro t
  unfold TicketStorage.list_all
  rw [List.mem_insertionSort, List.mem_filter, Bool.and_eq_true,
    statusMatches_iff, priorityMatches_iff]

/-- C8: listing with only the status filter set to `S` returns exactly the
subsequence of the unfiltered listing consisting of the records whose status
is `S`, in the store's defined ordering. -/
theorem filter_status_is_subsequence_of_list_all (db : DB) (S : Status) :
    TicketStorage.list_all db (some S) none =
      (TicketStorage.list_all db none none).filter (fun t => t.status == S) := by
  unfold TicketStorage.list_all
  rw [ticket_filter_insertionSort]
  congr 1
  simp [TicketStorage.statusMatches, TicketStorage.priorityMatches]

/-- C10 witness: in a store holding ticket 1, an update whose `title` field
is explicitly `None` is rejected with an `IntegrityError` leaving the store
unchanged, while the empty update (title unset) succeeds and leaves the
record as it is. -/
theorem update_explicit_none_title_rejected_witness :
    TicketStorage.update (TicketStorage.create emptyDB { title := "B" }).2 1
        { title := some none, status := some (some Status.DONE) } =
      (Except.error IntegrityError.notNullViolation,
        (TicketStorage.create emptyDB { title := "B" }).2) ∧
    TicketStorage.update (TicketStorage.create emptyDB { title := "B" }).2 1 { } =
      (Except.ok (some
          { id := 1, title := "B", priority := Priority.MED,
            status := Status.BACKLOG, created_at := 0, updated_at := 0 }),
        (TicketStorage.create emptyDB { title := "B" }).2) :=
  update_explicit_none_title_rejected (TicketStorage.create emptyDB { title := "B" }).2 1
    { title := some none, status := some (some Status.DONE) }
    { id := 1, title := "B", priority := Priority.MED,
      status := Status.BACKLOG, created_at := 0, updated_at := 0 }
    (by decide) rfl

/-! ## C1: empty-title validation -/

/-- C1 counterexample: the persistent variant's `create` (the cited
`TicketStorage.create` with the `TicketCreate` schema, whose `title: str`
carries no length constraint) accepts an empty title: called on the empty
store it succeeds, adds a record, and the stored title is the empty string —
so the claim that every store `create` with an empty title fails with a
`ValidationError` and leaves the store unchanged is false. -/
theorem backend_create_accepts_empty_title :
    (TicketStorage.create emptyDB { title := "" }).2.rows ≠ [] ∧
    (TicketStorage.create emptyDB { title := "" }).1.title = "" ∧
    TicketStorage.get (TicketStorage.create emptyDB { title := "" }).2 1 =
      some (TicketStorage.create emptyDB { title := "" }).1 := by
  refine ⟨?_, rfl, ?_⟩ <;> decide

/-- C1 amended: in the in-memory variant, whose Pydantic `Ticket` model
(`src/src/models.py`) validates `title` with `min_length=1`, `create` with an
empty title fails with a `ValidationError` and produces no new store state
(the store is unchanged), and `create` succeeds exactly when the title is
non-empty, appending the validated record. -/
theorem mem_create_validates_title (st : MemStore) (title : String)
    (p : Priority) (s : Status) :
    (title = "" →
      MemStore.create st title p s = Except.error ValidationError.emptyTitle) ∧
    (title ≠ "" →
      ∃ t st', MemStore.create st title p s = Except.ok (t, st') ∧
        t.title = title ∧ st'.tickets = st.tickets ++ [t] ∧
        st'.next_id = st.next_id + 1) := by
  constructor
  · intro h
    simp [MemStore.create, h]
  · intro h
    refine ⟨{ id := st.next_id, title := title, priority := p, status := s },
      { next_id := st.next_id + 1,
        tickets := st.tickets ++
          [{ id := st.next_id, title := title, priority := p, status := s }] },
      ?_, rfl, rfl, rfl⟩
    simp [MemStore.create, h]

/-- C1 witness: on a fresh in-memory store, `create ""` is a
`ValidationError` while `create "Fix login bug"` succeeds and appends the
record. -/
theorem mem_create_validates_title_witness :
    MemStore.create emptyMemStore "" Priority.MED Status.BACKLOG =
      Except.error ValidationError.emptyTitle ∧
    ∃ t st', MemStore.create emptyMemStore "Fix login bug" Priority.HIGH Status.BACKLOG =
        Except.ok (t, st') ∧
      t.title = "Fix login bug" ∧ st'.tickets = emptyMemStore.tickets ++ [t] ∧
      st'.next_id = emptyMemStore.next_id + 1 :=
  ⟨(mem_create_validates_title emptyMemStore "" Priority.MED Status.BACKLOG).1 rfl,
   (mem_create_validates_title emptyMemStore "Fix login bug" Priority.HIGH
      Status.BACKLOG).2 (by decide)⟩

/-! ## C9: id assignment in the in-memory variant -/

lemma memTicket_find?_some_id {l : List MemTicket} {i : Nat} {t : MemTicket}
    (h : l.find? (fun u => u.id == i) = some t) : t.id = i := by
  simpa using List.find?_some h

lemma mem_map_id_replaceFirst (t' : MemTicket) {i : Nat} (ht : t'.id = i) :
    ∀ l : List MemTicket,
      (replaceFirst (fun u => u.id == i) t' l).map MemTicket.id =
        l.map MemTicket.id := by
  intro l
  induction l with
  | nil => rfl
  | cons b l ih =>
    by_cases hb : b.id = i
    · simp [replaceFirst, hb, ht]
    · simp [replaceFirst, hb, ih]

lemma mem_createMany_inv (inputs : List (String × Priority × Status)) :
    ∀ st : MemStore,
      (∀ t ∈ st.tickets, t.id < st.next_id) →
      (st.tickets.map MemTicket.id).Pairwise (fun a b => a < b) →
      (∀ t ∈ (MemStore.createMany st inputs).tickets,
          t.id < (MemStore.createMany st inputs).next_id) ∧
      ((MemStore.createMany st inputs).tickets.map MemTicket.id).Pairwise
        (fun a b => a < b) := by
  induction inputs with
  | nil => intro st h1 h2; exact ⟨h1, h2⟩
  | cons input rest ih =>
    intro st h1 h2
    obtain ⟨title, p, s⟩ := input
    by_cases ht : title = ""
    · have : MemStore.createMany st ((title, p, s) :: rest) =
          MemStore.createMany st rest := by
        simp [MemStore.createMany, MemStore.create, ht]
      rw [this]
      exact ih st h1 h2
    · have hstep : MemStore.createMany st ((title, p, s) :: rest) =
          MemStore.createMany
            { next_id := st.next_id + 1,
              tickets := st.tickets ++
                [{ id := st.next_id, title := title, priority := p, status := s }] }
            rest := by
        simp [MemStore.createMany, MemStore.create, ht]
      rw [hstep]
      refine ih _ ?_ ?_
      · intro t htm
        rcases List.mem_append.mp htm with hold | hnew
        · exact Nat.lt_succ_of_lt (h1 t hold)
        · rcases List.mem_singleton.mp hnew with rfl
          exact Nat.lt_succ_self _
      · rw [List.map_append, List.pairwise_append]
        refine ⟨h2, List.pairwise_singleton _ _, ?_⟩
        intro x hx y hy
        rcases List.mem_map.mp hx with ⟨u, hu, rfl⟩
        simp only [List.map_cons, List.map_nil, List.mem_singleton] at hy
        rw [hy]
        exact h1 u hu

/-- C9: in the in-memory variant, any sequence of `create` calls on a fresh
store yields tickets whose ids are strictly increasing in creation order
(hence unique), and no later operation changes a surviving record's id:
`update_status` and `update_priority` leave the stored id sequence exactly as
it was, and `delete` only removes records (every surviving record was already
in the store, unchanged). -/
theorem mem_ids_increasing_and_stable :
    (∀ inputs : List (String × Priority × Status),
      ((MemStore.createMany emptyMemStore inputs).tickets.map MemTicket.id).Pairwise
          (fun a b => a < b) ∧
      ((MemStore.createMany emptyMemStore inputs).tickets.map MemTicket.id).Nodup) ∧
    (∀ (st : MemStore) (i : Nat) (s : Status),
      ((MemStore.update_status st i s).2.tickets.map MemTicket.id) =
        st.tickets.map MemTicket.id) ∧
    (∀ (st : MemStore) (i : Nat) (p : Priority),
      ((MemStore.update_priority st i p).2.tickets.map MemTicket.id) =
        st.tickets.map MemTicket.id) ∧
    (∀ (st : MemStore) (i : Nat) (t : MemTicket),
      t ∈ (MemStore.delete st i).2.tickets → t ∈ st.tickets) := by
  refine ⟨?_, ?_, ?_, ?_⟩
  · intro inputs
    have h := mem_createMany_inv inputs emptyMemStore
      (by intro t ht; simp [emptyMemStore] at ht) (by simp [emptyMemStore])
    exact ⟨h.2, h.2.imp Nat.ne_of_lt⟩
  · intro st i s
    unfold MemStore.update_status
    cases hf : st.tickets.find? (fun t => t.id == i) with
    | none => rfl
    | some t =>
      show (replaceFirst (fun u => u.id == i) { t with status := s }
          st.tickets).map MemTicket.id = st.tickets.map MemTicket.id
      have hid : t.id = i := memTicket_find?_some_id hf
      exact mem_map_id_replaceFirst { t with status := s } hid st.tickets
  · intro st i p
    unfold MemStore.update_priority
    cases hf : st.tickets.find? (fun t => t.id == i) with
    | none => rfl
    | some t =>
      show (replaceFirst (fun u => u.id == i) { t with priority := p }
          st.tickets).map MemTicket.id = st.tickets.map MemTicket.id
      have hid : t.id = i := memTicket_find?_some_id hf
      exact mem_map_id_replaceFirst { t with priority := p } hid st.tickets
  · intro st i t ht
    unfold MemStore.delete at ht
    cases hf : st.tickets.find? (fun u => u.id == i) with
    | none => rw [hf] at ht; exact ht
    | some u =>
      rw [hf] at ht
      exact List.mem_of_mem_eraseP ht

/-- C2 witness: in a store holding tickets "A" (BACKLOG) and "B" (DONE), the
DONE-filtered listing contains exactly the second ticket and is sorted by
creation time descending. -/
theorem list_all_filters_and_sorted_witness :
    ((TicketStorage.create (TicketStorage.create emptyDB { title := "A" }).2
          { title := "B", status := Status.DONE }).1 ∈
        TicketStorage.list_all
          (TicketStorage.create (TicketStorage.create emptyDB { title := "A" }).2
            { title := "B", status := Status.DONE }).2
          (some Status.DONE) none) ∧
    (TicketStorage.list_all
        (TicketStorage.create (TicketStorage.create emptyDB { title := "A" }).2
          { title := "B", status := Status.DONE }).2
        (some Status.DONE) none).Sorted TicketStorage.laterFirst := by
  have h := list_all_filters_and_sorted
    (TicketStorage.create (TicketStorage.create emptyDB { title := "A" }).2
      { title := "B", status := Status.DONE }).2
    (some Status.DONE) none
  refine ⟨?_, h.2.2⟩
  refine (h.1 _).mpr ⟨?_, ?_, ?_⟩
  · decide
  · intro s hs
    cases hs
    decide
  · intro p hp
    cases hp

/-- C8 witness: with tickets "A" (BACKLOG) and "B" (DONE) stored, the
DONE-only listing equals the status-filtered full listing. -/
theorem filter_status_is_subsequence_witness :
    TicketStorage.list_all
        (TicketStorage.create (TicketStorage.create emptyDB { title := "A" }).2
          { title := "B", status := Status.DONE }).2
        (some Status.DONE) none =
      (TicketStorage.list_all
          (TicketStorage.create (TicketStorage.create emptyDB { title := "A" }).2
            { title := "B", status := Status.DONE }).2
          none none).filter (fun t => t.status == Status.DONE) :=
  filter_status_is_subsequence_of_list_all
    (TicketStorage.create (TicketStorage.create emptyDB { title := "A" }).2
      { title := "B", status := Status.DONE }).2
    Status.DONE

/-- C9 witness: creating three tickets on a fresh in-memory store yields the
strictly increasing, duplicate-free id sequence, and updating ticket 1's
status leaves the id sequence unchanged. -/
theorem mem_ids_increasing_and_stable_witness :
    ((MemStore.createMany emptyMemStore
        [("Task 1", Priority.MED, Status.BACKLOG),
         ("Task 2", Priority.HIGH, Status.BACKLOG),
         ("Task 3", Priority.LOW, Status.DONE)]).tickets.map MemTicket.id).Pairwise
        (fun a b => a < b) ∧
    ((MemStore.update_status
        (MemStore.createMany emptyMemStore
          [("Task 1", Priority.MED, Status.BACKLOG),
           ("Task 2", Priority.HIGH, Status.BACKLOG),
           ("Task 3", Priority.LOW, Status.DONE)]) 1 Status.DONE).2.tickets.map
      MemTicket.id) =
      ((MemStore.createMany emptyMemStore
        [("Task 1", Priority.MED, Status.BACKLOG),
         ("Task 2", Priority.HIGH, Status.BACKLOG),
         ("Task 3", Priority.LOW, Status.DONE)]).tickets.map MemTicket.id) :=
  ⟨(mem_ids_increasing_and_stable.1
      [("Task 1", Priority.MED, Status.BACKLOG),
       ("Task 2", Priority.HIGH, Status.BACKLOG),
       ("Task 3", Priority.LOW, Status.DONE)]).1,
   mem_ids_increasing_and_stable.2.1
     (MemStore.createMany emptyMemStore
       [("Task 1", Priority.MED, Status.BACKLOG),
        ("Task 2", Priority.HIGH, Status.BACKLOG),
        ("Task 3", Priority.LOW, Status.DONE)]) 1 Status.DONE⟩
